import Mathlib

/-!
A shallow embedding of the ex-rate/logger package (Go, package `logger`):
the configuration type, sink construction (`New`, `setupFormatter`,
`setupOutput`), contextual-logger operations (`WithService`, `WithGroup`,
`SetLevel`, `GetLevel`) and per-call base-field construction (`withFields`),
together with theorems checking the specification's claims about them.

File opening is modelled by an oracle `openF : String → Except String Unit`
(the environment decides whether `os.OpenFile` succeeds), and caller stack
introspection by an `Option Frame` argument (the result of `runtime.Caller`,
with `Frame.fn` the result of `runtime.FuncForPC`, `none` when it is nil).
Sinks live in a `Heap` so that distinct `Logger` handles can share one
underlying `logrus.Logger`, as the Go pointers do.
-/

namespace ExRateLogger

/-- Severity levels of the underlying engine (logrus), a closed enum
(`PanicLevel` .. `TraceLevel` re-exported by the package). -/
inductive Level where
  | panicLevel
  | fatalLevel
  | errorLevel
  | warnLevel
  | infoLevel
  | debugLevel
  | traceLevel
deriving DecidableEq, Repr

/-- `OutputType` is a string type in the Go source (`type OutputType string`). -/
abbrev OutputType := String

/-- Go constant `ConsoleOutput OutputType = "console"`. -/
def ConsoleOutput : OutputType := "console"

/-- Go constant `FileOutput OutputType = "file"`. -/
def FileOutput : OutputType := "file"

/-- Go constant `BothOutput OutputType = "both"`. -/
def BothOutput : OutputType := "both"

/-- The `Config` struct: level, output, file_path, format. -/
structure Config where
  level : Level
  output : OutputType
  filePath : String
  format : String
deriving DecidableEq, Repr

/-- The formatter installed on a logrus logger: a `TextFormatter` with its
`FullTimestamp` flag, or a `JSONFormatter`. -/
inductive Formatter where
  | text (fullTimestamp : Bool)
  | json
deriving DecidableEq, Repr

/-- A writer target: standard output, standard error (the logrus default),
or an opened file identified by its path. -/
inductive Writer where
  | stdout
  | stderr
  | fileW (path : String)
deriving DecidableEq, Repr

/-- The observable state of a `logrus.Logger` instance: its level, its
formatter, and its writer set (a singleton, or the fan-out list installed
through `io.MultiWriter`). -/
structure LogrusLogger where
  level : Level
  formatter : Formatter
  out : List Writer
deriving DecidableEq, Repr

/-- `logrus.New()`: default level Info, default text formatter (abbreviated
timestamps), default output standard error. -/
def logrusNew : LogrusLogger :=
  { level := Level.infoLevel, formatter := Formatter.text false, out := [Writer.stderr] }

/-- `setupFormatter` from the source: console or both installs a
`TextFormatter{FullTimestamp: true}`, file installs a `JSONFormatter`,
any other output leaves the formatter untouched; the returned error is
always nil (`Except.ok`). The `config.format` field is never consulted. -/
def setupFormatter (logger : LogrusLogger) (config : Config) : Except String LogrusLogger :=
  if config.output = ConsoleOutput ∨ config.output = BothOutput then
    Except.ok { logger with formatter := Formatter.text true }
  else if config.output = FileOutput then
    Except.ok { logger with formatter := Formatter.json }
  else
    Except.ok logger

/-- `setupOutput` from the source: console gets stdout; file requires a
non-empty path (else a configuration error) and an openable file (else a
wrapped I/O error); both gets stdout plus the file writer only when the
path is non-empty; any other output type is rejected. The writer list is
installed as the logger's output (`io.MultiWriter` when more than one). -/
def setupOutput (openF : String → Except String Unit) (logger : LogrusLogger)
    (config : Config) : Except String LogrusLogger :=
  if config.output = ConsoleOutput then
    Except.ok { logger with out := [Writer.stdout] }
  else if config.output = FileOutput then
    if config.filePath = "" then
      Except.error "file path is required for file output"
    else
      match openF config.filePath with
      | Except.error e => Except.error ("failed to open log file: " ++ e)
      | Except.ok _ => Except.ok { logger with out := [Writer.fileW config.filePath] }
  else if config.output = BothOutput then
    if config.filePath ≠ "" then
      match openF config.filePath with
      | Except.error e => Except.error ("failed to open log file: " ++ e)
      | Except.ok _ =>
          Except.ok { logger with out := [Writer.stdout, Writer.fileW config.filePath] }
    else
      Except.ok { logger with out := [Writer.stdout] }
  else
    Except.error ("unsupported output type: " ++ config.output)

/-- The heap of allocated `logrus.Logger` instances; a `Logger` handle
refers to one of them by index, so several handles can share one sink. -/
structure Heap where
  sinks : List LogrusLogger
deriving DecidableEq, Repr

/-- Dereference a sink index in the heap. -/
def Heap.get (h : Heap) (i : Nat) : LogrusLogger :=
  h.sinks.getD i logrusNew

/-- The `Logger` struct: a pointer to a `logrus.Logger` (modelled as a heap
index) and a service name. -/
structure Logger where
  logger : Nat
  serviceName : String
deriving DecidableEq, Repr

/-- `New` from the source: allocate a fresh logrus logger, set its level
from the configuration, run `setupFormatter` then `setupOutput` (each error
wrapped with its own prefix), and on success publish the sink and return a
`Logger` with an empty service name. -/
def New (openF : String → Except String Unit) (config : Config) (h : Heap) :
    Except String (Logger × Heap) :=
  let logger := logrusNew
  let logger := { logger with level := config.level }
  match setupFormatter logger config with
  | Except.error e => Except.error ("failed to setup formatter: " ++ e)
  | Except.ok logger =>
    match setupOutput openF logger config with
    | Except.error e => Except.error ("failed to setup output: " ++ e)
    | Except.ok logger =>
        Except.ok ({ logger := h.sinks.length, serviceName := "" }, ⟨h.sinks ++ [logger]⟩)

/-- `WithService`: a new handle on the same sink with the given service name. -/
def Logger.WithService (l : Logger) (serviceName : String) : Logger :=
  { logger := l.logger, serviceName := serviceName }

/-- `WithGroup`: a new handle on the same sink whose service name is
`current + "." + group` when the current name is non-empty, else `group`. -/
def Logger.WithGroup (l : Logger) (group : String) : Logger :=
  let serviceName := if l.serviceName ≠ "" then l.serviceName ++ "." ++ group else group
  { logger := l.logger, serviceName := serviceName }

/-- `SetLevel`: mutate the shared sink's level through this handle. -/
def Logger.SetLevel (l : Logger) (h : Heap) (level : Level) : Heap :=
  ⟨h.sinks.set l.logger { h.get l.logger with level := level }⟩

/-- `GetLevel`: read the shared sink's level through this handle. -/
def Logger.GetLevel (l : Logger) (h : Heap) : Level :=
  (h.get l.logger).level

/-- The result of `runtime.Caller(2)` when it reports ok: the function
resolved by `runtime.FuncForPC` (`none` when that returns nil), the source
file path and the line number. -/
structure Frame where
  fn : Option String
  file : String
  line : Nat
deriving DecidableEq, Repr

/-- Split a character list on slashes (helper for `filepathBase`). -/
def splitOnSlash : List Char → List (List Char)
  | [] => [[]]
  | c :: rest =>
    let r := splitOnSlash rest
    if c = '/' then [] :: r
    else
      match r with
      | [] => [[c]]
      | comp :: t => (c :: comp) :: t

/-- `filepath.Base`: the last non-empty path component; `"."` for the empty
path, `"/"` for a path of slashes only. -/
def filepathBase (path : String) : String :=
  if path = "" then "."
  else
    match ((splitOnSlash path.toList).filter (fun c => c ≠ [])).getLast? with
    | some c => String.mk c
    | none => "/"

/-- `withFields` from the source: the base field set of every entry.
`service` is always present with the handle's service name; when
`runtime.Caller` reports ok, `func` is added only if `runtime.FuncForPC`
is non-nil, and `file` is always added as `"<basename>:<line>"`. The
function is total: logging never fails for lack of caller metadata. -/
def Logger.withFields (l : Logger) (caller : Option Frame) : List (String × String) :=
  let fields := [("service", l.serviceName)]
  match caller with
  | none => fields
  | some fr =>
    let fields :=
      match fr.fn with
      | some fnName => fields ++ [("func", fnName)]
      | none => fields
    fields ++ [("file", filepathBase fr.file ++ ":" ++ toString fr.line)]

/-! ### Helper lemmas -/

lemma list_getD_set_self {α : Type} (xs : List α) (i : Nat) (a d : α) (hi : i < xs.length) :
    (xs.set i a).getD i d = a := by
  induction xs generalizing i with
  | nil => exact absurd hi (by simp)
  | cons x xs ih =>
    cases i with
    | zero => rfl
    | succ n => exact ih n (Nat.lt_of_succ_lt_succ hi)

lemma list_getD_concat_self {α : Type} (xs : List α) (a d : α) :
    (xs ++ [a]).getD xs.length d = a := by
  induction xs with
  | nil => rfl
  | cons x xs ih => exact ih

lemma New_console (openF : String → Except String Unit) (config : Config) (h : Heap)
    (hc : config.output = ConsoleOutput) :
    New openF config h = Except.ok
      ({ logger := h.sinks.length, serviceName := "" },
       ⟨h.sinks ++ [{ level := config.level, formatter := Formatter.text true,
                      out := [Writer.stdout] }]⟩) := by
  simp [New, setupFormatter, setupOutput, hc]

lemma New_file_empty (openF : String → Except String Unit) (config : Config) (h : Heap)
    (hc : config.output = FileOutput) (hfp : config.filePath = "") :
    New openF config h =
      Except.error ("failed to setup output: " ++ "file path is required for file output") := by
  simp [New, setupFormatter, setupOutput, hc, hfp, ConsoleOutput, FileOutput, BothOutput]

lemma New_file_ok (openF : String → Except String Unit) (config : Config) (h : Heap)
    (hc : config.output = FileOutput) (hfp : config.filePath ≠ "")
    (hopen : openF config.filePath = Except.ok ()) :
    New openF config h = Except.ok
      ({ logger := h.sinks.length, serviceName := "" },
       ⟨h.sinks ++ [{ level := config.level, formatter := Formatter.json,
                      out := [Writer.fileW config.filePath] }]⟩) := by
  simp [New, setupFormatter, setupOutput, hc, hfp, hopen, ConsoleOutput, FileOutput, BothOutput]

lemma New_file_open_error (openF : String → Except String Unit) (config : Config) (h : Heap)
    (e : String) (hc : config.output = FileOutput) (hfp : config.filePath ≠ "")
    (hopen : openF config.filePath = Except.error e) :
    New openF config h =
      Except.error ("failed to setup output: " ++ ("failed to open log file: " ++ e)) := by
  simp [New, setupFormatter, setupOutput, hc, hfp, hopen, ConsoleOutput, FileOutput, BothOutput]

lemma New_both_ok (openF : String → Except String Unit) (config : Config) (h : Heap)
    (hc : config.output = BothOutput) (hfp : config.filePath ≠ "")
    (hopen : openF config.filePath = Except.ok ()) :
    New openF config h = Except.ok
      ({ logger := h.sinks.length, serviceName := "" },
       ⟨h.sinks ++ [{ level := config.level, formatter := Formatter.text true,
                      out := [Writer.stdout, Writer.fileW config.filePath] }]⟩) := by
  simp [New, setupFormatter, setupOutput, hc, hfp, hopen, ConsoleOutput, FileOutput, BothOutput]

lemma New_both_open_error (openF : String → Except String Unit) (config : Config) (h : Heap)
    (e : String) (hc : config.output = BothOutput) (hfp : config.filePath ≠ "")
    (hopen : openF config.filePath = Except.error e) :
    New openF config h =
      Except.error ("failed to setup output: " ++ ("failed to open log file: " ++ e)) := by
  simp [New, setupFormatter, setupOutput, hc, hfp, hopen, ConsoleOutput, FileOutput, BothOutput]

lemma New_both_empty (openF : String → Except String Unit) (config : Config) (h : Heap)
    (hc : config.output = BothOutput) (hfp : config.filePath = "") :
    New openF config h = Except.ok
      ({ logger := h.sinks.length, serviceName := "" },
       ⟨h.sinks ++ [{ level := config.level, formatter := Formatter.text true,
                      out := [Writer.stdout] }]⟩) := by
  simp [New, setupFormatter, setupOutput, hc, hfp, ConsoleOutput, FileOutput, BothOutput]

lemma New_unsupported (openF : String → Except String Unit) (config : Config) (h : Heap)
    (hc1 : config.output ≠ ConsoleOutput) (hc2 : config.output ≠ FileOutput)
    (hc3 : config.output ≠ BothOutput) :
    New openF config h =
      Except.error ("failed to setup output: " ++ ("unsupported output type: " ++ config.output)) := by
  simp [New, setupFormatter, setupOutput, hc1, hc2, hc3]

lemma New_ok_inv (openF : String → Except String Unit) (config : Config) (h : Heap)
    (l : Logger) (h' : Heap) (hok : New openF config h = Except.ok (l, h')) :
    ∃ sink : LogrusLogger, l = { logger := h.sinks.length, serviceName := "" } ∧
      h' = ⟨h.sinks ++ [sink]⟩ ∧ h'.get l.logger = sink ∧ sink.level = config.level ∧
      ((config.output = ConsoleOutput ∧ sink.formatter = Formatter.text true ∧
          sink.out = [Writer.stdout]) ∨
       (config.output = FileOutput ∧ config.filePath ≠ "" ∧
          sink.formatter = Formatter.json ∧ sink.out = [Writer.fileW config.filePath]) ∨
       (config.output = BothOutput ∧ config.filePath ≠ "" ∧
          sink.formatter = Formatter.text true ∧
          sink.out = [Writer.stdout, Writer.fileW config.filePath]) ∨
       (config.output = BothOutput ∧ config.filePath = "" ∧
          sink.formatter = Formatter.text true ∧ sink.out = [Writer.stdout])) := by
  by_cases hc : config.output = ConsoleOutput
  · rw [New_console openF config h hc] at hok
    injection hok with hpair
    injection hpair with hl hh
    subst hl; subst hh
    exact ⟨_, rfl, rfl, by simp [Heap.get, list_getD_concat_self], rfl, Or.inl ⟨hc, rfl, rfl⟩⟩
  · by_cases hf : config.output = FileOutput
    · by_cases hfp : config.filePath = ""
      · rw [New_file_empty openF config h hf hfp] at hok; cases hok
      · rcases hopen : openF config.filePath with e | u
        · rw [New_file_open_error openF config h e hf hfp hopen] at hok; cases hok
        · cases u
          rw [New_file_ok openF config h hf hfp hopen] at hok
          injection hok with hpair
          injection hpair with hl hh
          subst hl; subst hh
          exact ⟨_, rfl, rfl, by simp [Heap.get, list_getD_concat_self], rfl,
            Or.inr (Or.inl ⟨hf, hfp, rfl, rfl⟩)⟩
    · by_cases hb : config.output = BothOutput
      · by_cases hfp : config.filePath = ""
        · rw [New_both_empty openF config h hb hfp] at hok
          injection hok with hpair
          injection hpair with hl hh
          subst hl; subst hh
          exact ⟨_, rfl, rfl, by simp [Heap.get, list_getD_concat_self], rfl,
            Or.inr (Or.inr (Or.inr ⟨hb, hfp, rfl, rfl⟩))⟩
        · rcases hopen : openF config.filePath with e | u
          · rw [New_both_open_error openF config h e hb hfp hopen] at hok; cases hok
          · cases u
            rw [New_both_ok openF config h hb hfp hopen] at hok
            injection hok with hpair
            injection hpair with hl hh
            subst hl; subst hh
            exact ⟨_, rfl, rfl, by simp [Heap.get, list_getD_concat_self], rfl,
              Or.inr (Or.inr (Or.inl ⟨hb, hfp, rfl, rfl⟩))⟩
      · rw [New_unsupported openF config h hc hf hb] at hok; cases hok

/-! ### Claim theorems -/

/-- C1: `New` with output=file and empty file_path fails with the
configuration error, and with an output outside the closed set
{console, file, both} fails with the unsupported-output configuration
error; in both cases the result is `Except.error` alone, so no partial
sink or logger handle is ever returned alongside the error. -/
theorem buildRejectsInvalidConfig (openF : String → Except String Unit) (config : Config)
    (h : Heap) :
    (config.output = FileOutput → config.filePath = "" →
      New openF config h =
        Except.error ("failed to setup output: " ++ "file path is required for file output")) ∧
    (config.output ≠ ConsoleOutput → config.output ≠ FileOutput →
      config.output ≠ BothOutput →
      New openF config h =
        Except.error ("failed to setup output: " ++
          ("unsupported output type: " ++ config.output))) :=
  ⟨fun hc hfp => New_file_empty openF config h hc hfp,
   fun h1 h2 h3 => New_unsupported openF config h h1 h2 h3⟩

/-- Witness for C1 at a concrete file-without-path configuration and a
concrete unsupported output type. -/
theorem buildRejectsInvalidConfig_witness :
    New (fun _ => Except.ok ()) { level := Level.infoLevel, output := FileOutput,
                                  filePath := "", format := "text" } ⟨[]⟩ =
      Except.error ("failed to setup output: " ++ "file path is required for file output") ∧
    New (fun _ => Except.ok ()) { level := Level.infoLevel, output := "invalid",
                                  filePath := "", format := "text" } ⟨[]⟩ =
      Except.error ("failed to setup output: " ++
        ("unsupported output type: " ++ "invalid")) :=
  ⟨(buildRejectsInvalidConfig _ _ _).1 rfl rfl,
   (buildRejectsInvalidConfig _ _ _).2 (by decide) (by decide) (by decide)⟩

/-- C2 counterexample: with output=file, a non-empty file_path and
format="text", construction succeeds but the sink's formatter is the JSON
formatter, not a text formatter: the format field is not honored even for
file-only output, refuting the claim that it determines JSON versus text. -/
theorem formatNotHonoredForFile_counterexample :
    (New (fun _ => Except.ok ()) { level := Level.infoLevel, output := FileOutput,
                                   filePath := "app.log", format := "text" } ⟨[]⟩).map
      (fun res => (res.2.get res.1.logger).formatter) = Except.ok Formatter.json ∧
    Formatter.json ≠ Formatter.text true ∧ Formatter.json ≠ Formatter.text false :=
  ⟨rfl, by decide, by decide⟩

/-- C2 amended: for every configuration with output=file accepted by `New`,
the sink's formatter is the JSON formatter regardless of the format field;
the format field is ignored entirely (console and both always get text,
file always gets JSON). -/
theorem fileFormatterAlwaysJson (openF : String → Except String Unit) (config : Config)
    (h : Heap) (l : Logger) (h' : Heap) (hout : config.output = FileOutput)
    (hok : New openF config h = Except.ok (l, h')) :
    (h'.get l.logger).formatter = Formatter.json := by
  obtain ⟨sink, -, -, hget, -, hcases⟩ := New_ok_inv openF config h l h' hok
  rw [hget]
  rcases hcases with ⟨ho, -, -⟩ | ⟨-, -, hf, -⟩ | ⟨ho, -, -, -⟩ | ⟨ho, -, -, -⟩
  · exact absurd (hout.symm.trans ho) (by decide)
  · exact hf
  · exact absurd (hout.symm.trans ho) (by decide)
  · exact absurd (hout.symm.trans ho) (by decide)

/-- Witness for the amended C2 at a concrete file configuration with
format="text". -/
theorem fileFormatterAlwaysJson_witness :
    (Heap.get ⟨[{ level := Level.infoLevel, formatter := Formatter.json,
                  out := [Writer.fileW "app.log"] }]⟩ 0).formatter = Formatter.json :=
  fileFormatterAlwaysJson (fun _ => Except.ok ())
    { level := Level.infoLevel, output := FileOutput, filePath := "app.log", format := "text" }
    ⟨[]⟩ (Logger.mk 0 "")
    ⟨[{ level := Level.infoLevel, formatter := Formatter.json,
        out := [Writer.fileW "app.log"] }]⟩
    rfl rfl

/-- C3: for every configuration accepted by `New`, the sink's formatter is
the text formatter with full timestamps when output is console or both,
and the JSON formatter when output is file. -/
theorem formatterSelection (openF : String → Except String Unit) (config : Config)
    (h : Heap) (l : Logger) (h' : Heap) (hok : New openF config h = Except.ok (l, h')) :
    ((config.output = ConsoleOutput ∨ config.output = BothOutput) →
      (h'.get l.logger).formatter = Formatter.text true) ∧
    (config.output = FileOutput → (h'.get l.logger).formatter = Formatter.json) := by
  obtain ⟨sink, -, -, hget, -, hcases⟩ := New_ok_inv openF config h l h' hok
  rw [hget]
  refine ⟨fun hco => ?_, fun hfo => ?_⟩
  · rcases hcases with ⟨ho, hf, -⟩ | ⟨ho, -, -, -⟩ | ⟨ho, -, hf, -⟩ | ⟨ho, -, hf, -⟩
    · exact hf
    · rcases hco with hcc | hcb
      · exact absurd (hcc.symm.trans ho) (by decide)
      · exact absurd (hcb.symm.trans ho) (by decide)
    · exact hf
    · exact hf
  · rcases hcases with ⟨ho, -, -⟩ | ⟨ho, -, hf, -⟩ | ⟨ho, -, -, -⟩ | ⟨ho, -, -, -⟩
    · exact absurd (hfo.symm.trans ho) (by decide)
    · exact hf
    · exact absurd (hfo.symm.trans ho) (by decide)
    · exact absurd (hfo.symm.trans ho) (by decide)

/-- Witness for C3 at a concrete console configuration. -/
theorem formatterSelection_witness :
    (Heap.get ⟨[{ level := Level.debugLevel, formatter := Formatter.text true,
                  out := [Writer.stdout] }]⟩ 0).formatter = Formatter.text true :=
  (formatterSelection (fun _ => Except.ok ())
    { level := Level.debugLevel, output := ConsoleOutput, filePath := "", format := "text" }
    ⟨[]⟩ (Logger.mk 0 "")
    ⟨[{ level := Level.debugLevel, formatter := Formatter.text true, out := [Writer.stdout] }]⟩
    rfl).1 (Or.inl rfl)

/-- C4: `WithService(s)` followed by `WithGroup(g)` yields service name
`s ++ "." ++ g` when `s` is non-empty; `WithGroup(g)` on an empty service
name yields exactly `g`; both operations are pure functions of the receiver
that return a new handle sharing the receiver's sink (the receiver itself,
being a value in this embedding, is never mutated). -/
theorem withServiceWithGroupServiceName (l : Logger) (s g : String) :
    (s ≠ "" → ((l.WithService s).WithGroup g).serviceName = s ++ "." ++ g) ∧
    (l.serviceName = "" → (l.WithGroup g).serviceName = g) ∧
    (l.WithService s).logger = l.logger ∧ (l.WithGroup g).logger = l.logger := by
  refine ⟨fun hs => ?_, fun hl => ?_, rfl, rfl⟩
  · simp [Logger.WithService, Logger.WithGroup, hs]
  · simp [Logger.WithGroup, hl]

/-- Witness for C4 at concrete names "svc" and "sub". -/
theorem withServiceWithGroupServiceName_witness :
    (((Logger.mk 0 "").WithService "svc").WithGroup "sub").serviceName = "svc" ++ "." ++ "sub" ∧
    ((Logger.mk 0 "").WithGroup "sub").serviceName = "sub" :=
  ⟨(withServiceWithGroupServiceName (Logger.mk 0 "") "svc" "sub").1 (by decide),
   (withServiceWithGroupServiceName (Logger.mk 0 "") "svc" "sub").2.1 rfl⟩

/-- C5: `SetLevel` through one handle is observed by `GetLevel` through
either handle sharing the same sink, and handles derived with `WithService`
or `WithGroup` share the receiver's sink. -/
theorem setLevelSharedAcrossHandles (h : Heap) (l1 l2 : Logger) (x : Level) (s g : String)
    (hshare : l2.logger = l1.logger) (hlt : l1.logger < h.sinks.length) :
    l2.GetLevel (l1.SetLevel h x) = x ∧ l1.GetLevel (l1.SetLevel h x) = x ∧
    (l1.WithService s).logger = l1.logger ∧ (l1.WithGroup g).logger = l1.logger := by
  have hbase : ∀ lq : Logger, lq.logger = l1.logger → lq.GetLevel (l1.SetLevel h x) = x := by
    intro lq hq
    unfold Logger.GetLevel Logger.SetLevel Heap.get
    rw [hq]
    rw [list_getD_set_self h.sinks l1.logger _ logrusNew hlt]
  exact ⟨hbase l2 hshare, hbase l1 rfl, rfl, rfl⟩

/-- Witness for C5 with two concrete handles sharing sink 0. -/
theorem setLevelSharedAcrossHandles_witness :
    (Logger.mk 0 "svc").GetLevel ((Logger.mk 0 "").SetLevel ⟨[logrusNew]⟩ Level.debugLevel) =
      Level.debugLevel :=
  (setLevelSharedAcrossHandles ⟨[logrusNew]⟩ (Logger.mk 0 "") (Logger.mk 0 "svc")
    Level.debugLevel "a" "b" rfl (by decide)).1

/-- C6: with output=both and a non-empty file_path the writer set is stdout
plus the file writer; with output=both and an empty file_path `New` still
succeeds and the writer set is stdout only. -/
theorem bothOutputWriterSet (openF : String → Except String Unit) (config : Config)
    (h : Heap) (hb : config.output = BothOutput) :
    (config.filePath ≠ "" → openF config.filePath = Except.ok () →
      ∃ l h', New openF config h = Except.ok (l, h') ∧
        (h'.get l.logger).out = [Writer.stdout, Writer.fileW config.filePath]) ∧
    (config.filePath = "" →
      ∃ l h', New openF config h = Except.ok (l, h') ∧
        (h'.get l.logger).out = [Writer.stdout]) := by
  constructor
  · intro hfp hopen
    refine ⟨_, _, New_both_ok openF config h hb hfp hopen, ?_⟩
    simp [Heap.get, list_getD_concat_self]
  · intro hfp
    refine ⟨_, _, New_both_empty openF config h hb hfp, ?_⟩
    simp [Heap.get, list_getD_concat_self]

/-- Witness for C6 at concrete both-output configurations with and without
a file path. -/
theorem bothOutputWriterSet_witness :
    (∃ l h', New (fun _ => Except.ok ()) { level := Level.infoLevel, output := BothOutput,
                                           filePath := "x.log", format := "text" } ⟨[]⟩ = Except.ok (l, h') ∧
      (h'.get l.logger).out = [Writer.stdout, Writer.fileW "x.log"]) ∧
    (∃ l h', New (fun _ => Except.ok ()) { level := Level.infoLevel, output := BothOutput,
                                           filePath := "", format := "text" } ⟨[]⟩ = Except.ok (l, h') ∧
      (h'.get l.logger).out = [Writer.stdout]) :=
  ⟨(bothOutputWriterSet _ _ _ rfl).1 (by decide) rfl,
   (bothOutputWriterSet _ _ _ rfl).2 rfl⟩

/-- C7: for every configuration accepted by `New`, `GetLevel` on the
returned logger equals the configuration's level. -/
theorem sinkLevelFromConfig (openF : String → Except String Unit) (config : Config)
    (h : Heap) (l : Logger) (h' : Heap) (hok : New openF config h = Except.ok (l, h')) :
    l.GetLevel h' = config.level := by
  obtain ⟨sink, -, -, hget, hlev, -⟩ := New_ok_inv openF config h l h' hok
  unfold Logger.GetLevel
  rw [hget]
  exact hlev

/-- Witness for C7 at a concrete warn-level console configuration. -/
theorem sinkLevelFromConfig_witness :
    (Logger.mk 0 "").GetLevel ⟨[{ level := Level.warnLevel, formatter := Formatter.text true,
                                  out := [Writer.stdout] }]⟩ = Level.warnLevel :=
  sinkLevelFromConfig (fun _ => Except.ok ())
    { level := Level.warnLevel, output := ConsoleOutput, filePath := "", format := "text" }
    ⟨[]⟩ (Logger.mk 0 "")
    ⟨[{ level := Level.warnLevel, formatter := Formatter.text true, out := [Writer.stdout] }]⟩
    rfl

/-- C8 counterexample: a frame on which `runtime.Caller` reported ok but
`runtime.FuncForPC` returned nil yields a base field set with `file`
present and `func` absent, refuting the claim that a successful
introspection always contributes both fields. -/
theorem callerFuncOmitted_counterexample :
    (some (Frame.mk none "a/b.go" 7)).isSome = true ∧
    ((Logger.mk 0 "").withFields (some (Frame.mk none "a/b.go" 7))).lookup "func" = none ∧
    ((Logger.mk 0 "").withFields (some (Frame.mk none "a/b.go" 7))).lookup "file" =
      some "b.go:7" :=
  ⟨rfl, by decide, by decide⟩

/-- C8 amended: when introspection fails, both `func` and `file` are
omitted and the entry still carries only the `service` base field
(`withFields` is a total function, so logging never fails for missing
caller metadata); when introspection succeeds, `file` is always present as
basename:line, and `func` is present exactly when the function object
resolves, carrying its qualified name. -/
theorem callerFieldsDegradeGracefully (l : Logger) (fr : Frame) :
    ((l.withFields none).lookup "func" = none ∧ (l.withFields none).lookup "file" = none ∧
      l.withFields none = [("service", l.serviceName)]) ∧
    ((l.withFields (some fr)).lookup "file" =
      some (filepathBase fr.file ++ ":" ++ toString fr.line)) ∧
    (∀ fnName, fr.fn = some fnName → (l.withFields (some fr)).lookup "func" = some fnName) ∧
    (fr.fn = none → (l.withFields (some fr)).lookup "func" = none) := by
  obtain ⟨fno, file, line⟩ := fr
  refine ⟨⟨rfl, rfl, rfl⟩, ?_, ?_, ?_⟩
  · cases fno <;> rfl
  · intro fnName hf
    cases fno with
    | none => cases hf
    | some nm => cases hf; rfl
  · intro hf
    cases fno with
    | none => rfl
    | some nm => cases hf

/-- Witness for the amended C8: omission with no frame, and the qualified
name with a resolved frame. -/
theorem callerFieldsDegradeGracefully_witness :
    ((Logger.mk 0 "").withFields none).lookup "file" = none ∧
    ((Logger.mk 0 "").withFields
        (some (Frame.mk (some "main.main") "x/y.go" 12))).lookup "func" = some "main.main" :=
  ⟨(callerFieldsDegradeGracefully (Logger.mk 0 "")
      (Frame.mk (some "main.main") "x/y.go" 12)).1.2.1,
   (callerFieldsDegradeGracefully (Logger.mk 0 "")
      (Frame.mk (some "main.main") "x/y.go" 12)).2.2.1 "main.main" rfl⟩

/-- C9: `setupFormatter` returns a nil error for every input, so the
failed-to-setup-formatter branch of `New` is unreachable, and every error
`New` returns carries the setup-output prefix, i.e. originates from
`setupOutput`. -/
theorem setupFormatterNeverFails (logger : LogrusLogger) (config : Config) :
    (∃ l', setupFormatter logger config = Except.ok l') ∧
    (∀ (openF : String → Except String Unit) (h : Heap) (e : String),
      New openF config h = Except.error e →
      ∃ e', e = "failed to setup output: " ++ e') := by
  constructor
  · unfold setupFormatter
    split
    · exact ⟨_, rfl⟩
    · split
      · exact ⟨_, rfl⟩
      · exact ⟨_, rfl⟩
  · intro openF h e herr
    by_cases hc : config.output = ConsoleOutput
    · rw [New_console openF config h hc] at herr; cases herr
    · by_cases hf : config.output = FileOutput
      · by_cases hfp : config.filePath = ""
        · rw [New_file_empty openF config h hf hfp] at herr
          exact ⟨_, (Except.error.inj herr).symm⟩
        · rcases hopen : openF config.filePath with e0 | u
          · rw [New_file_open_error openF config h e0 hf hfp hopen] at herr
            exact ⟨_, (Except.error.inj herr).symm⟩
          · cases u
            rw [New_file_ok openF config h hf hfp hopen] at herr; cases herr
      · by_cases hb : config.output = BothOutput
        · by_cases hfp : config.filePath = ""
          · rw [New_both_empty openF config h hb hfp] at herr; cases herr
          · rcases hopen : openF config.filePath with e0 | u
            · rw [New_both_open_error openF config h e0 hb hfp hopen] at herr
              exact ⟨_, (Except.error.inj herr).symm⟩
            · cases u
              rw [New_both_ok openF config h hb hfp hopen] at herr; cases herr
        · rw [New_unsupported openF config h hc hf hb] at herr
          exact ⟨_, (Except.error.inj herr).symm⟩

/-- Witness for C9: `setupFormatter` succeeds even on an unsupported output
type, and the error `New` returns there carries the setup-output prefix. -/
theorem setupFormatterNeverFails_witness :
    (∃ l', setupFormatter logrusNew { level := Level.infoLevel, output := "invalid",
                                      filePath := "", format := "text" } = Except.ok l') ∧
    (∃ e', ("failed to setup output: " ++ ("unsupported output type: " ++ "invalid")) =
      "failed to setup output: " ++ e') := by
  have hthm := setupFormatterNeverFails logrusNew
    { level := Level.infoLevel, output := "invalid", filePath := "", format := "text" }
  exact ⟨hthm.1, hthm.2 (fun _ => Except.ok ()) ⟨[]⟩ _ rfl⟩

/-- C10: every logger `New` returns has the empty service name, and the
base field set of every entry emitted through any handle always contains
the `service` key mapped to that handle's service name, so a root logger's
entries carry service = "" rather than omitting the field. -/
theorem rootServiceEmptyAndAlwaysStamped (openF : String → Except String Unit)
    (config : Config) (h : Heap) (l : Logger) (h' : Heap)
    (hok : New openF config h = Except.ok (l, h')) :
    l.serviceName = "" ∧
    (∀ caller : Option Frame, (l.withFields caller).lookup "service" = some "") ∧
    (∀ (l2 : Logger) (caller : Option Frame),
      (l2.withFields caller).lookup "service" = some l2.serviceName) := by
  have hserv : ∀ (l2 : Logger) (caller : Option Frame),
      (l2.withFields caller).lookup "service" = some l2.serviceName := by
    intro l2 caller
    cases caller with
    | none => rfl
    | some fr =>
      obtain ⟨fno, file, line⟩ := fr
      cases fno <;> rfl
  obtain ⟨sink, hl, -, -, -, -⟩ := New_ok_inv openF config h l h' hok
  refine ⟨?_, ?_, hserv⟩
  · rw [hl]
  · intro caller
    rw [hserv l caller, hl]

/-- Witness for C10 at a concrete console configuration. -/
theorem rootServiceEmptyAndAlwaysStamped_witness :
    (Logger.mk 0 "").serviceName = "" ∧
    ((Logger.mk 0 "").withFields none).lookup "service" = some "" := by
  have hthm := rootServiceEmptyAndAlwaysStamped (fun _ => Except.ok ())
    { level := Level.infoLevel, output := ConsoleOutput, filePath := "", format := "text" }
    ⟨[]⟩ (Logger.mk 0 "")
    ⟨[{ level := Level.infoLevel, formatter := Formatter.text true, out := [Writer.stdout] }]⟩
    rfl
  exact ⟨hthm.1, hthm.2.1 none⟩

end ExRateLogger
